import Mathlib

/-!
Verification of the API gateway/client layer of the voice-agent-frontend
repository (`src/utils/config.ts`, `src/utils/api.ts`, and the agent-control
widget derived running-state computation).

The embedding is shallow: TypeScript optional values (`string | null |
undefined`) become `Option String`; JavaScript truthiness on strings (`x ||
y`, conditional spread `...(x ? {k: x} : {})`) is modelled explicitly as a
test against `none` and the empty string; the process-wide mock-agent object
(`mockAgents`, a JS object with string keys) becomes an insertion-ordered
association list threaded through the operations as explicit state; a
completed HTTP exchange is an `Except ApiError α` handed to each operation,
and a thrown `Error(debugInfo)` becomes `Except.error debugInfo`.
`JSON.stringify(response.data, null, 2)` is modelled abstractly by storing
the rendered string itself in the `dataStr` field.  Console logging is a
side channel with no effect on any return value and is not modelled.
-/

set_option maxRecDepth 8000

namespace VoiceAgent

/-! ## String containment (models JS `String.prototype.includes`) -/

/-- Tests whether the character list `pat` is an initial segment of `s`. -/
def startsWithL : List Char → List Char → Bool
  | [], _ => true
  | _ :: _, [] => false
  | a :: as, b :: bs => a == b && startsWithL as bs

/-- Tests whether `pat` occurs contiguously somewhere inside the list. -/
def occursIn (pat : List Char) : List Char → Bool
  | [] => pat.isEmpty
  | b :: bs => startsWithL pat (b :: bs) || occursIn pat bs

/-- Models the JS substring test: `containsSub s pat` is the value of `s.includes(pat)`. -/
def containsSub (s pat : String) : Bool := occursIn pat.toList s.toList

/-- Models JS `String.prototype.toUpperCase` (character-wise upper-casing;
the source applies it only to HTTP method names). -/
def toUpperStr (s : String) : String := String.mk (s.data.map Char.toUpper)

/-- JS `x || y` on an optional string: `null`/`undefined` and the empty
string are falsy and select the fallback. -/
def jsOr (x : Option String) (y : String) : String :=
  match x with
  | some s => if s = "" then y else s
  | none => y

/-! ## `src/utils/config.ts` -/

/-- The process environment as read by `config.ts`.  The two URL variables
are the only ones the file consults; `NEXT_PUBLIC_USE_MOCK_DATA` is carried
in the model so that the (non-)dependence of the mock flag on the
environment can be stated. -/
structure Env where
  NEXT_PUBLIC_DOCUMENT_API_URL : Option String
  NEXT_PUBLIC_AGENT_MANAGER_URL : Option String
  NEXT_PUBLIC_USE_MOCK_DATA : Option String
deriving DecidableEq

structure Config where
  documentApiUrl : String
  agentManagerApiUrl : String
  useMockData : Bool
deriving DecidableEq

/-- Resolution performed by `config.ts`: each URL is `process.env.X || fallback`;
the mock flag is the literal `false`. -/
def config (env : Env) : Config :=
  { documentApiUrl := jsOr env.NEXT_PUBLIC_DOCUMENT_API_URL "http://51.20.138.127:8000"
    agentManagerApiUrl := jsOr env.NEXT_PUBLIC_AGENT_MANAGER_URL "http://51.20.138.127:8001"
    useMockData := false }

/-! ## `src/utils/api.ts`: error model and `debugApiError` -/

/-- The `response` field of an axios error: the server answered with a
non-2xx status.  `dataStr` holds the string `JSON.stringify(response.data,
null, 2)` evaluates to. -/
structure ServerResponse where
  status : Nat
  statusText : Option String
  dataStr : String
deriving DecidableEq

/-- The `config` field of an axios error (the request configuration). -/
structure ReqConfig where
  url : Option String
  baseURL : Option String
  method : Option String
deriving DecidableEq

/-- The shape `debugApiError` inspects: `response`, `request` (only its
presence/truthiness matters), `message`, and the request `config`. -/
structure ApiError where
  response : Option ServerResponse
  request : Bool
  message : Option String
  config : Option ReqConfig
deriving DecidableEq

/-- Ambient values interpolated into the diagnostic: `window.location.origin`,
the two resolved config URLs, and `navigator.userAgent`. -/
structure EnvInfo where
  origin : String
  documentApiUrl : String
  agentManagerApiUrl : String
  userAgent : String
deriving DecidableEq

/-- Tests whether the failure message includes the substring CORS or the
substring cross-origin; an absent message is falsy. -/
def mentionsCrossOrigin (m : Option String) : Bool :=
  match m with
  | some s => containsSub s "CORS" || containsSub s "cross-origin"
  | none => false

/-- The `corsError` test computed inside the server-response branch. -/
def corsCheck (r : ServerResponse) (msg : Option String) : Bool :=
  (r.status == 0) || (r.status == 403) || mentionsCrossOrigin msg

/-- The same test lifted to a whole error object: it can only hold when a
server response is present, mirroring that the source computes it only
inside the `if (axiosError.response)` branch. -/
def corsError (e : ApiError) : Bool :=
  match e.response with
  | some r => corsCheck r e.message
  | none => false

/-- The marker substring that both the diagnostic emitter and the error
display component treat as the cross-origin-suspected flag. -/
def corsMarker : String := "CORS POLICY ERROR DETECTED"

/-- Leading text of the CORS block; the marker is part of it. -/
def corsBlockHead : String := "\n❌ CORS POLICY ERROR DETECTED!\nThe server is not allowing requests from "

/-- The block appended to the diagnostic when `corsError` holds. -/
def corsBlock (origin : String) : String :=
  corsBlockHead ++ origin ++ ".\nServer needs to add this origin to its CORS allowed origins list.\n"

/-- The `Connection Details` section. -/
def connectionDetails (e : ApiError) : String :=
  "\nConnection Details:\n- API URL: " ++ jsOr (e.config.bind (fun c => c.baseURL)) "unknown"
    ++ "\n- Endpoint: " ++ jsOr (e.config.bind (fun c => c.url)) "unknown"
    ++ "\n- Method: " ++ jsOr ((e.config.bind (fun c => c.method)).map toUpperStr) "unknown"
    ++ "\n"

/-- The `Server Response` section, with the CORS block appended exactly when
`corsCheck` fires. -/
def serverSection (r : ServerResponse) (msg : Option String) (env : EnvInfo) : String :=
  ("\nServer Response:\n- Status: " ++ toString r.status ++ " " ++ jsOr r.statusText ""
      ++ "\n- Response Data: " ++ r.dataStr ++ "\n")
    ++ (if corsCheck r msg then corsBlock env.origin else "")

/-- The `Network Error` section (request sent, no response). -/
def networkSection (msg : Option String) : String :=
  "\nNetwork Error:\n- Type: Request sent but no response received\n- Message: "
    ++ jsOr msg "Connection failed"
    ++ "\n- This usually indicates server is unreachable or down\n"

/-- The `Request Setup Error` section (request never dispatched). -/
def setupSection (msg : Option String) : String :=
  "\nRequest Setup Error:\n- Message: " ++ jsOr msg "Unknown error" ++ "\n"
    ++ (if (match msg with | some s => containsSub s "Network Error" | none => false) then
          "- This appears to be a network connectivity issue\n- Check if the API server is running and accessible\n"
        else "")

/-- The trailing `Environment Info` section. -/
def environmentInfo (env : EnvInfo) : String :=
  "\nEnvironment Info:\n- Frontend URL: " ++ env.origin
    ++ "\n- Document API: " ++ env.documentApiUrl
    ++ "\n- Agent Manager API: " ++ env.agentManagerApiUrl
    ++ "\n- Browser: " ++ env.userAgent ++ "\n"

/-- Builds the full diagnostic string (`debugApiError`).  The three-way
branch mirrors the source: a present `response` wins, else a present
`request` means a network error, else a request-setup error. -/
def debugApiError (e : ApiError) (context : String) (env : EnvInfo) : String :=
  (("API Error in " ++ context ++ "\n") ++ connectionDetails e)
    ++ (match e.response with
        | some r => serverSection r e.message env
        | none => if e.request then networkSection e.message else setupSection e.message)
    ++ environmentInfo env

/-! ## `src/utils/api.ts`: data shapes -/

inductive AgentType where
  | voice
  | web
deriving DecidableEq

/-- Wire spelling of an agent type. -/
def AgentType.wire : AgentType → String
  | .voice => "voice"
  | .web => "web"

structure Collection where
  name : String
  path : String
  is_default : Bool
deriving DecidableEq

structure AgentRecord where
  user_id : String
  agent_type : AgentType
  running_time : Nat
deriving DecidableEq

structure DocumentUploadResponse where
  status : String
  message : String
  document_count : Nat
  index_id : String
deriving DecidableEq

structure ConfigResponse where
  status : String
  message : String
deriving DecidableEq

structure CollectionsResponse where
  collections : List Collection
deriving DecidableEq

structure AgentResponse where
  status : String
  user_id : String
  container_id : Option String
deriving DecidableEq

structure AgentsListResponse where
  agents : List AgentRecord
deriving DecidableEq

structure AgentConfig where
  system_prompt : String
  voice : String
  model : String
  agent_name : String
deriving DecidableEq

/-- The fixed three-element mock collection list. -/
def mockCollections : List Collection :=
  [ { name := "Default Collection", path := "/collections/default", is_default := true }
  , { name := "Product Documentation", path := "/collections/products", is_default := false }
  , { name := "Customer Support", path := "/collections/support", is_default := false } ]

/-! ## The mock agent map

`mockAgents` is a JS object with string keys; modelled as an
insertion-ordered association list.  Object keys are unique, which the
operations preserve starting from the empty object. -/

abbrev MockAgents : Type := List (String × AgentRecord)

/-- JS property assignment `m[k] = v`: replace the entry for `k` in place if
one exists, otherwise append at the end. -/
def objSet : MockAgents → String → AgentRecord → MockAgents
  | [], k, v => [(k, v)]
  | q :: rest, k, v => if q.1 == k then (k, v) :: rest else q :: objSet rest k v

/-- JS `delete m[k]`. -/
def objDelete (m : MockAgents) (k : String) : MockAgents :=
  m.filter (fun q => q.1 != k)

/-- JS `Object.values(m)` (no claim depends on enumeration order). -/
def objValues (m : MockAgents) : List AgentRecord :=
  m.map (fun q => q.2)

/-- Well-keyedness: the `user_id` of every stored record equals its key.  Holds
for every state reachable from the empty object, since only `startAgent`
inserts and it uses the `user_id` of the record as the key. -/
def wellKeyed (m : MockAgents) : Prop := ∀ q ∈ m, q.2.user_id = q.1

instance (m : MockAgents) : Decidable (wellKeyed m) :=
  inferInstanceAs (Decidable (∀ q ∈ m, q.2.user_id = q.1))

/-! ## The six gateway operations

Each operation takes the resolved `USE_MOCK` flag, the mock-map state where
the source touches it, the completed HTTP exchange (`transport`), and the
ambient `EnvInfo` for diagnostics.  A thrown `Error(debugInfo)` is
`Except.error debugInfo`. -/

def uploadDocuments (useMock : Bool) (userId : String) (fileCount : Nat)
    (collectionName : Option String)
    (transport : Except ApiError DocumentUploadResponse) (env : EnvInfo) :
    Except String DocumentUploadResponse :=
  if useMock then
    Except.ok
      { status := "success"
        message := "Documents uploaded and processed successfully"
        document_count := fileCount
        index_id := userId ++ "_index_123" }
  else
    match transport with
    | Except.ok r => Except.ok r
    | Except.error e => Except.error (debugApiError e "Document Upload" env)

def configureAgent (useMock : Bool) (userId : String) (cfg : AgentConfig)
    (transport : Except ApiError ConfigResponse) (env : EnvInfo) :
    Except String ConfigResponse :=
  if useMock then
    Except.ok { status := "success", message := "Agent configuration updated successfully" }
  else
    match transport with
    | Except.ok r => Except.ok r
    | Except.error e => Except.error (debugApiError e "Agent Configuration" env)

def listCollections (useMock : Bool) (userId : String)
    (transport : Except ApiError CollectionsResponse) (env : EnvInfo) :
    Except String CollectionsResponse :=
  if useMock then
    Except.ok { collections := mockCollections }
  else
    match transport with
    | Except.ok r => Except.ok r
    | Except.error e => Except.error (debugApiError e "List Collections" env)

/-- The `/start-agent` wire payload as the ordered list of serialized keys
and string values.  The two conditional spreads
`...(collectionName ? { collection_name: collectionName } : {})` test JS
truthiness: `null`/`undefined` (here `none`) and the empty string are both
falsy and contribute no key. -/
def startAgentPayload (userId : String) (collectionName phoneNumber : Option String)
    (agentType : AgentType) : List (String × String) :=
  [("user_id", userId)]
    ++ (match collectionName with
        | some s => if s = "" then [] else [("collection_name", s)]
        | none => [])
    ++ (match phoneNumber with
        | some s => if s = "" then [] else [("phone_number", s)]
        | none => [])
    ++ [("agent_type", agentType.wire)]

def startAgent (useMock : Bool) (state : MockAgents) (userId : String)
    (collectionName phoneNumber : Option String) (agentType : AgentType)
    (now : Nat) (transport : Except ApiError AgentResponse) (env : EnvInfo) :
    MockAgents × Except String AgentResponse :=
  if useMock then
    ( objSet state userId { user_id := userId, agent_type := agentType, running_time := 0 }
    , Except.ok
        { status := "success"
          user_id := userId
          container_id := some ("container_" ++ userId ++ "_" ++ toString now) } )
  else
    ( state
    , match transport with
      | Except.ok r => Except.ok r
      | Except.error e => Except.error (debugApiError e "Start Agent" env) )

def stopAgent (useMock : Bool) (state : MockAgents) (userId : String)
    (transport : Except ApiError AgentResponse) (env : EnvInfo) :
    MockAgents × Except String AgentResponse :=
  if useMock then
    ( objDelete state userId
    , Except.ok { status := "success", user_id := userId, container_id := none } )
  else
    ( state
    , match transport with
      | Except.ok r => Except.ok r
      | Except.error e => Except.error (debugApiError e "Stop Agent" env) )

def listAgents (useMock : Bool) (state : MockAgents)
    (transport : Except ApiError AgentsListResponse) (env : EnvInfo) :
    Except String AgentsListResponse :=
  if useMock then
    Except.ok { agents := objValues state }
  else
    match transport with
    | Except.ok r => Except.ok r
    | Except.error e => Except.error (debugApiError e "List Agents" env)

/-- The request interceptor installed on each axios instance when
`USE_MOCK` holds: it rejects every request with the message Using mock data.
`none` means no interceptor is installed. -/
def documentApiRequestInterceptor (useMock : Bool) : Option (Unit → Except String Unit) :=
  if useMock then some (fun _ => Except.error "Using mock data") else none

def agentManagerApiRequestInterceptor (useMock : Bool) : Option (Unit → Except String Unit) :=
  if useMock then some (fun _ => Except.error "Using mock data") else none

/-- Derived running state for one user, from `AgentControl.fetchData`:
`Boolean(agentsData.agents.find(agent => agent.user_id === userId))`. -/
def isAgentRunning (agents : List AgentRecord) (userId : String) : Bool :=
  (agents.find? (fun a => a.user_id == userId)).isSome

/-! ## Concrete inputs used by witnesses and counterexamples -/

def env0 : EnvInfo :=
  { origin := "http://localhost:3000"
    documentApiUrl := "http://51.20.138.127:8000"
    agentManagerApiUrl := "http://51.20.138.127:8001"
    userAgent := "TestBrowser/1.0" }

def reqCfg0 : ReqConfig :=
  { url := some "/start-agent", baseURL := some "http://51.20.138.127:8001", method := some "post" }

/-- A simulated 403 response. -/
def err403 : ApiError :=
  { response := some { status := 403, statusText := some "Forbidden", dataStr := "detail: access denied" }
    request := true
    message := some "Request failed with status code 403"
    config := some reqCfg0 }

/-- A simulated 500 response whose message does not mention cross-origin
restrictions. -/
def err500 : ApiError :=
  { response := some { status := 500, statusText := some "Internal Server Error", dataStr := "detail: boom" }
    request := true
    message := some "Request failed with status code 500"
    config := some reqCfg0 }

/-- A simulated network failure: request present, no response. -/
def errNet : ApiError :=
  { response := none
    request := true
    message := some "Network Error"
    config := some reqCfg0 }

/-- A network failure whose message mentions both CORS and cross-origin
restrictions, yet carries no server response. -/
def errCorsMsg : ApiError :=
  { response := none
    request := true
    message := some "blocked by CORS policy: cross-origin request denied"
    config := none }

/-- A completed agent exchange; its content is irrelevant in mock mode. -/
def trAgentOk : Except ApiError AgentResponse :=
  Except.ok { status := "ignored", user_id := "ignored", container_id := none }

/-- A completed agent-list exchange; irrelevant in mock mode. -/
def trAgentsOk : Except ApiError AgentsListResponse := Except.ok ⟨[]⟩

/-- A mock map holding one unrelated agent. -/
def s0 : MockAgents := [("bob", ⟨"bob", AgentType.web, 7⟩)]

/-- A mock map already holding a running voice agent for carol. -/
def s1 : MockAgents := [("carol", ⟨"carol", AgentType.voice, 9⟩)]

/-! ## Helper lemmas: string containment -/

theorem occursIn_nil_pat (b : List Char) : occursIn [] b = true := by
  cases b <;> simp [occursIn, startsWithL, List.isEmpty]

theorem startsWithL_extend (p : List Char) :
    ∀ s a, startsWithL p s = true → startsWithL p (s ++ a) = true := by
  induction p with
  | nil => intro s a _; rfl
  | cons q qs ih =>
    intro s a h
    cases s with
    | nil => simp [startsWithL] at h
    | cons b bs =>
      simp only [startsWithL, Bool.and_eq_true] at h ⊢
      exact ⟨h.1, ih bs a h.2⟩

theorem occursIn_append_left (a s : List Char) (p : List Char)
    (h : occursIn p s = true) : occursIn p (a ++ s) = true := by
  induction a with
  | nil => exact h
  | cons x xs ih =>
    show occursIn p (x :: (xs ++ s)) = true
    rw [occursIn]
    simp [ih]

theorem occursIn_append_right (s : List Char) :
    ∀ a p, occursIn p s = true → occursIn p (s ++ a) = true := by
  induction s with
  | nil =>
    intro a p h
    simp only [occursIn, List.isEmpty_iff] at h
    subst h
    simpa using occursIn_nil_pat a
  | cons b bs ih =>
    intro a p h
    rw [occursIn] at h
    rcases Bool.or_eq_true_iff.mp h with h1 | h2
    · show occursIn p (b :: (bs ++ a)) = true
      rw [occursIn]
      have : startsWithL p (b :: (bs ++ a)) = true := by
        rw [← List.cons_append]
        exact startsWithL_extend p (b :: bs) a h1
      simp [this]
    · show occursIn p (b :: (bs ++ a)) = true
      rw [occursIn]
      simp [ih a p h2]

theorem toList_append (a b : String) : (a ++ b).toList = a.toList ++ b.toList := by
  simp [String.toList]

theorem containsSub_append_left (a s pat : String) (h : containsSub s pat = true) :
    containsSub (a ++ s) pat = true := by
  unfold containsSub at h ⊢
  rw [toList_append]
  exact occursIn_append_left _ _ _ h

theorem containsSub_append_right (s a pat : String) (h : containsSub s pat = true) :
    containsSub (s ++ a) pat = true := by
  unfold containsSub at h ⊢
  rw [toList_append]
  exact occursIn_append_right _ _ _ h

/-- The marker is contained in the CORS block for every origin. -/
theorem containsSub_corsBlock (origin : String) :
    containsSub (corsBlock origin) corsMarker = true := by
  unfold corsBlock
  exact containsSub_append_right _ _ _
    (containsSub_append_right _ _ _ (by decide))

/-! ## Helper lemmas: the mock agent map -/

theorem objSet_keys_mem (m : MockAgents) (k : String) (v : AgentRecord) :
    ∀ x ∈ (objSet m k v).map Prod.fst, x ∈ m.map Prod.fst ∨ x = k := by
  induction m with
  | nil => intro x hx; simp [objSet] at hx; simp [hx]
  | cons q rest ih =>
    intro x hx
    by_cases h : q.1 == k
    · simp only [objSet, if_pos h] at hx
      simp only [List.map_cons, List.mem_cons] at hx ⊢
      rcases hx with hx | hx
      · exact Or.inr hx
      · exact Or.inl (Or.inr hx)
    · simp only [objSet, if_neg h] at hx
      simp only [List.map_cons, List.mem_cons] at hx ⊢
      rcases hx with hx | hx
      · exact Or.inl (Or.inl hx)
      · rcases ih x hx with h' | h'
        · exact Or.inl (Or.inr h')
        · exact Or.inr h'

theorem objSet_keys_nodup (m : MockAgents) (k : String) (v : AgentRecord)
    (hnd : (m.map Prod.fst).Nodup) : ((objSet m k v).map Prod.fst).Nodup := by
  induction m with
  | nil => simp [objSet]
  | cons q rest ih =>
    simp only [List.map_cons, List.nodup_cons] at hnd
    by_cases h : q.1 == k
    · simp only [objSet, if_pos h, List.map_cons, List.nodup_cons]
      refine ⟨fun hk => ?_, hnd.2⟩
      exact hnd.1 (by rwa [eq_of_beq h])
    · simp only [objSet, if_neg h, List.map_cons, List.nodup_cons]
      refine ⟨fun hq => ?_, ih hnd.2⟩
      rcases objSet_keys_mem rest k v q.1 hq with h' | h'
      · exact hnd.1 h'
      · exact h (by simp [h'])

theorem wellKeyed_objSet (m : MockAgents) (k : String) (v : AgentRecord)
    (hwf : wellKeyed m) (hv : v.user_id = k) : wellKeyed (objSet m k v) := by
  induction m with
  | nil => intro q hq; simp [objSet] at hq; simp [hq, hv]
  | cons q rest ih =>
    intro q' hq'
    by_cases h : q.1 == k
    · simp only [objSet, if_pos h, List.mem_cons] at hq'
      rcases hq' with hq' | hq'
      · simp [hq', hv]
      · exact hwf q' (List.mem_cons_of_mem _ hq')
    · simp only [objSet, if_neg h, List.mem_cons] at hq'
      rcases hq' with hq' | hq'
      · exact hq' ▸ hwf q (List.mem_cons_self _ _)
      · exact ih (fun x hx => hwf x (List.mem_cons_of_mem _ hx)) q' hq'

theorem objDelete_values_ne (m : MockAgents) (k : String) (hwf : wellKeyed m) :
    ∀ a ∈ objValues (objDelete m k), a.user_id ≠ k := by
  intro a ha
  simp only [objValues, objDelete, List.mem_map, List.mem_filter] at ha
  obtain ⟨q, ⟨hqm, hqk⟩, rfl⟩ := ha
  rw [hwf q hqm]
  exact bne_iff_ne.mp hqk

theorem objSet_filter_values (m : MockAgents) (k : String) (v : AgentRecord)
    (hnd : (m.map Prod.fst).Nodup) :
    ((objSet m k v).filter (fun q => q.1 == k)).map Prod.snd = [v] := by
  induction m with
  | nil => simp [objSet]
  | cons q rest ih =>
    simp only [List.map_cons, List.nodup_cons] at hnd
    by_cases h : q.1 == k
    · simp only [objSet, if_pos h]
      have hrest : rest.filter (fun q => q.1 == k) = [] := by
        apply List.filter_eq_nil_iff.mpr
        intro x hx hxk
        refine hnd.1 ?_
        have hq1 : q.1 = x.1 := by rw [eq_of_beq h, eq_of_beq hxk]
        rw [hq1]
        exact List.mem_map_of_mem Prod.fst hx
      simp [List.filter_cons, hrest]
    · simp only [objSet, if_neg h]
      rw [List.filter_cons_of_neg (by simpa using h)]
      exact ih hnd.2

theorem wellKeyed_user_ids (m : MockAgents) (hwf : wellKeyed m) :
    m.map (fun q => q.2.user_id) = m.map Prod.fst :=
  List.map_congr_left (fun q hq => hwf q hq)

/-! ## Helper lemmas: shape of the rendered diagnostic -/

theorem debugApiError_response_eq (r : ServerResponse) (req : Bool)
    (msg : Option String) (cfg : Option ReqConfig) (ctx : String) (env : EnvInfo) :
    debugApiError ⟨some r, req, msg, cfg⟩ ctx env =
      (("API Error in " ++ ctx ++ "\n") ++ connectionDetails ⟨some r, req, msg, cfg⟩)
        ++ serverSection r msg env ++ environmentInfo env := rfl

theorem serverSection_cors_emits (r : ServerResponse) (msg : Option String)
    (env : EnvInfo) (hc : corsCheck r msg = true) :
    serverSection r msg env =
      ("\nServer Response:\n- Status: " ++ toString r.status ++ " " ++ jsOr r.statusText ""
          ++ "\n- Response Data: " ++ r.dataStr ++ "\n")
        ++ corsBlock env.origin := by
  unfold serverSection
  rw [if_pos hc]

/-! ## Claim theorems -/

/-- C1: for every `(collectionName, phoneNumber)` pair where either may be
absent, the `startAgent` wire payload contains `collection_name`
(resp. `phone_number`) only when the corresponding value is present; an
absent value contributes no key at all (so it is never serialized as null
or as the empty string), while `user_id` and `agent_type` are always
present. -/
theorem startAgent_payload_omits_absent_optionals (userId : String)
    (c p : Option String) (t : AgentType) :
    ("collection_name" ∈ (startAgentPayload userId c p t).map Prod.fst →
        ∃ s, c = some s ∧ s ≠ "")
    ∧ (c = none → "collection_name" ∉ (startAgentPayload userId c p t).map Prod.fst)
    ∧ (∀ v, ("collection_name", v) ∈ startAgentPayload userId c p t → v ≠ "")
    ∧ ("phone_number" ∈ (startAgentPayload userId c p t).map Prod.fst →
        ∃ s, p = some s ∧ s ≠ "")
    ∧ (p = none → "phone_number" ∉ (startAgentPayload userId c p t).map Prod.fst)
    ∧ (∀ v, ("phone_number", v) ∈ startAgentPayload userId c p t → v ≠ "")
    ∧ "user_id" ∈ (startAgentPayload userId c p t).map Prod.fst
    ∧ "agent_type" ∈ (startAgentPayload userId c p t).map Prod.fst := by
  rcases c with _ | s
  · rcases p with _ | s'
    · simp [startAgentPayload]
    · by_cases hs' : s' = "" <;>
        simp_all [startAgentPayload]
  · rcases p with _ | s'
    · by_cases hs : s = "" <;>
        simp_all [startAgentPayload]
    · by_cases hs : s = "" <;> by_cases hs' : s' = "" <;>
        simp_all [startAgentPayload]

theorem startAgent_payload_omits_absent_optionals_witness :
    ("collection_name" ∉
        (startAgentPayload "u7" none (some "+15551234") AgentType.voice).map Prod.fst)
    ∧ "user_id" ∈
        (startAgentPayload "u7" none (some "+15551234") AgentType.voice).map Prod.fst :=
  ⟨(startAgent_payload_omits_absent_optionals "u7" none (some "+15551234")
      AgentType.voice).2.1 rfl,
   (startAgent_payload_omits_absent_optionals "u7" none (some "+15551234")
      AgentType.voice).2.2.2.2.2.2.1⟩

/-- C7: the derived "is an agent running for this user" boolean is true iff
at least one descriptor in the fetched list has a matching `user_id`; with
zero matches it is false. -/
theorem agent_running_iff_descriptor_exists (agents : List AgentRecord) (u : String) :
    (isAgentRunning agents u = true ↔ ∃ a ∈ agents, a.user_id = u)
    ∧ ((∀ a ∈ agents, a.user_id ≠ u) → isAgentRunning agents u = false) := by
  constructor
  · unfold isAgentRunning
    rw [List.find?_isSome]
    simp
  · intro h
    cases hb : isAgentRunning agents u with
    | false => rfl
    | true =>
      exfalso
      have := (by
        unfold isAgentRunning at hb
        rw [List.find?_isSome] at hb
        simpa using hb : ∃ a ∈ agents, a.user_id = u)
      obtain ⟨a, ha, hau⟩ := this
      exact h a ha hau

theorem agent_running_iff_descriptor_exists_witness :
    isAgentRunning [⟨"alice", AgentType.voice, 3⟩] "bob" = false :=
  (agent_running_iff_descriptor_exists [⟨"alice", AgentType.voice, 3⟩] "bob").2
    (by decide)

/-- C8 counterexample: the mock-mode flag is not environment-provided — the
resolver yields `useMockData = false` regardless of what the environment
holds, so the claim that each of the three configuration values is
overridable from the environment is false. -/
theorem config_useMockData_ignores_environment :
    (config ⟨some "http://doc.example", some "http://agent.example", some "true"⟩).useMockData
        = false
    ∧ (config ⟨none, none, some "1"⟩).useMockData = false :=
  ⟨rfl, rfl⟩

/-- C8 amended: the two base URLs are overridable from the environment and
fall back to hardcoded literals when the variable is unset (or empty, which
JS truthiness treats as unset), but the mock/live toggle is the hardcoded
literal `false` and never comes from the environment. -/
theorem config_resolution_amended (e : Env) :
    (e.NEXT_PUBLIC_DOCUMENT_API_URL = none →
        (config e).documentApiUrl = "http://51.20.138.127:8000")
    ∧ (∀ s, e.NEXT_PUBLIC_DOCUMENT_API_URL = some s → s ≠ "" →
        (config e).documentApiUrl = s)
    ∧ (e.NEXT_PUBLIC_AGENT_MANAGER_URL = none →
        (config e).agentManagerApiUrl = "http://51.20.138.127:8001")
    ∧ (∀ s, e.NEXT_PUBLIC_AGENT_MANAGER_URL = some s → s ≠ "" →
        (config e).agentManagerApiUrl = s)
    ∧ (config e).useMockData = false := by
  refine ⟨fun h => ?_, fun s h hs => ?_, fun h => ?_, fun s h hs => ?_, rfl⟩
  · simp [config, jsOr, h]
  · simp [config, jsOr, h, hs]
  · simp [config, jsOr, h]
  · simp [config, jsOr, h, hs]

theorem config_resolution_amended_witness :
    (config ⟨some "http://doc.example", none, none⟩).documentApiUrl = "http://doc.example"
    ∧ (config ⟨some "http://doc.example", none, none⟩).agentManagerApiUrl
        = "http://51.20.138.127:8001"
    ∧ (config ⟨some "http://doc.example", none, none⟩).useMockData = false :=
  ⟨(config_resolution_amended ⟨some "http://doc.example", none, none⟩).2.1
      "http://doc.example" rfl (by decide),
   (config_resolution_amended ⟨some "http://doc.example", none, none⟩).2.2.1 rfl,
   (config_resolution_amended ⟨some "http://doc.example", none, none⟩).2.2.2.2⟩

/-- C2: for every error carrying a server response, the CORS sub-flag holds
exactly when the status is 0 or 403 or the message mentions cross-origin
restrictions, and whenever it holds the formatted diagnostic contains the
cross-origin-suspected marker; concretely, the diagnostic for the simulated
403 contains the marker and the one for the simulated 500 (whose message
has no cross-origin mention) does not. -/
theorem debugApiError_cors_marker_iff_status :
    (∀ (e : ApiError) (r : ServerResponse) (ctx : String) (env : EnvInfo),
        e.response = some r →
        (corsError e = true ↔
            (r.status = 0 ∨ r.status = 403 ∨ mentionsCrossOrigin e.message = true))
          ∧ (corsError e = true →
              containsSub (debugApiError e ctx env) corsMarker = true))
    ∧ containsSub (debugApiError err403 "Start Agent" env0) corsMarker = true
    ∧ containsSub (debugApiError err500 "Start Agent" env0) corsMarker = false := by
  refine ⟨fun e r ctx env h => ⟨?_, ?_⟩, by decide, by decide⟩
  · simp [corsError, h, corsCheck, or_assoc]
  · intro hc
    obtain ⟨eres, ereq, emsg, ecfg⟩ := e
    obtain rfl : eres = some r := h
    have hc' : corsCheck r emsg = true := hc
    rw [debugApiError_response_eq, serverSection_cors_emits r emsg env hc']
    exact containsSub_append_right _ _ _
      (containsSub_append_left _ _ _
        (containsSub_append_left _ _ _ (containsSub_corsBlock env.origin)))

theorem debugApiError_cors_marker_iff_status_witness :
    containsSub (debugApiError err403 "API Test" env0) corsMarker = true :=
  (debugApiError_cors_marker_iff_status.1 err403
      { status := 403, statusText := some "Forbidden", dataStr := "detail: access denied" }
      "API Test" env0 rfl).2 (by decide)

/-- C3: a failure with no `response` but with a `request` is rendered as a
network error: the diagnostic is exactly the network-section shape (so the
server-response section does not appear); concretely, the simulated network
diagnostic of the simulated network failure contains the network-error header and not the
server-response header. -/
theorem debugApiError_network_classification :
    (∀ (e : ApiError) (ctx : String) (env : EnvInfo),
        e.response = none → e.request = true →
        debugApiError e ctx env =
          (("API Error in " ++ ctx ++ "\n") ++ connectionDetails e)
            ++ networkSection e.message ++ environmentInfo env)
    ∧ containsSub (debugApiError errNet "List Agents" env0) "Network Error:" = true
    ∧ containsSub (debugApiError errNet "List Agents" env0) "Server Response:" = false := by
  refine ⟨fun e ctx env h1 h2 => ?_, by decide, by decide⟩
  obtain ⟨eres, ereq, emsg, ecfg⟩ := e
  obtain rfl : eres = none := h1
  obtain rfl : ereq = true := h2
  rfl

theorem debugApiError_network_classification_witness :
    debugApiError errNet "Stop Agent" env0 =
      (("API Error in " ++ "Stop Agent" ++ "\n") ++ connectionDetails errNet)
        ++ networkSection errNet.message ++ environmentInfo env0 :=
  debugApiError_network_classification.1 errNet "Stop Agent" env0 rfl rfl

/-- C10: the cross-origin flag can fire only when a server response is
present: with no `response` field the flag is false and the diagnostic is
rendered from the network or setup section, neither of which emits the CORS
block; concretely, a response-less failure whose message mentions both CORS
and cross-origin restrictions still yields a diagnostic without the
marker. -/
theorem cors_marker_requires_server_response :
    (∀ e : ApiError, e.response = none → corsError e = false)
    ∧ (∀ (e : ApiError) (ctx : String) (env : EnvInfo),
        e.response = none →
        debugApiError e ctx env =
          (("API Error in " ++ ctx ++ "\n") ++ connectionDetails e)
            ++ (if e.request then networkSection e.message else setupSection e.message)
            ++ environmentInfo env)
    ∧ mentionsCrossOrigin errCorsMsg.message = true
    ∧ containsSub (debugApiError errCorsMsg "Start Agent" env0) corsMarker = false := by
  refine ⟨fun e h => ?_, fun e ctx env h => ?_, by decide, by decide⟩
  · simp [corsError, h]
  · obtain ⟨eres, ereq, emsg, ecfg⟩ := e
    obtain rfl : eres = none := h
    rfl

theorem cors_marker_requires_server_response_witness :
    corsError errNet = false :=
  cors_marker_requires_server_response.1 errNet rfl

/-- C4: with mock mode enabled, each of the six gateway operations returns
its locally fabricated success value regardless of what the HTTP transport
would have produced (so the HTTP client is never consulted), and both
clients carry a request interceptor that rejects every request with the
message Using mock data. -/
theorem mock_mode_short_circuits_all_operations :
    (∀ (userId : String) (fc : Nat) (cn : Option String)
        (tr : Except ApiError DocumentUploadResponse) (env : EnvInfo),
        uploadDocuments true userId fc cn tr env =
          Except.ok
            ⟨"success", "Documents uploaded and processed successfully", fc,
              userId ++ "_index_123"⟩)
    ∧ (∀ (userId : String) (cfg : AgentConfig)
        (tr : Except ApiError ConfigResponse) (env : EnvInfo),
        configureAgent true userId cfg tr env =
          Except.ok ⟨"success", "Agent configuration updated successfully"⟩)
    ∧ (∀ (userId : String) (tr : Except ApiError CollectionsResponse) (env : EnvInfo),
        listCollections true userId tr env = Except.ok ⟨mockCollections⟩)
    ∧ (∀ (s : MockAgents) (u : String) (c p : Option String) (t : AgentType)
        (now : Nat) (tr : Except ApiError AgentResponse) (env : EnvInfo),
        startAgent true s u c p t now tr env =
          (objSet s u ⟨u, t, 0⟩,
            Except.ok ⟨"success", u, some ("container_" ++ u ++ "_" ++ toString now)⟩))
    ∧ (∀ (s : MockAgents) (u : String)
        (tr : Except ApiError AgentResponse) (env : EnvInfo),
        stopAgent true s u tr env = (objDelete s u, Except.ok ⟨"success", u, none⟩))
    ∧ (∀ (s : MockAgents) (tr : Except ApiError AgentsListResponse) (env : EnvInfo),
        listAgents true s tr env = Except.ok ⟨objValues s⟩)
    ∧ (∃ f, documentApiRequestInterceptor true = some f
        ∧ ∀ u, f u = Except.error "Using mock data")
    ∧ (∃ g, agentManagerApiRequestInterceptor true = some g
        ∧ ∀ u, g u = Except.error "Using mock data") :=
  ⟨fun _ _ _ _ _ => rfl, fun _ _ _ _ => rfl, fun _ _ _ => rfl,
   fun _ _ _ _ _ _ _ _ => rfl, fun _ _ _ _ => rfl, fun _ _ _ => rfl,
   ⟨_, rfl, fun _ => rfl⟩, ⟨_, rfl, fun _ => rfl⟩⟩

/-- C5: in live mode every operation that sees a failed exchange re-raises
an error whose message is exactly the `debugApiError` diagnostic for its
context, and every successful exchange is returned verbatim — nothing is
swallowed or replaced by a default. -/
theorem live_mode_propagates_formatted_errors :
    (∀ (u : String) (fc : Nat) (cn : Option String) (e : ApiError) (env : EnvInfo),
        uploadDocuments false u fc cn (Except.error e) env =
          Except.error (debugApiError e "Document Upload" env))
    ∧ (∀ (u : String) (fc : Nat) (cn : Option String) (r : DocumentUploadResponse)
        (env : EnvInfo),
        uploadDocuments false u fc cn (Except.ok r) env = Except.ok r)
    ∧ (∀ (u : String) (cfg : AgentConfig) (e : ApiError) (env : EnvInfo),
        configureAgent false u cfg (Except.error e) env =
          Except.error (debugApiError e "Agent Configuration" env))
    ∧ (∀ (u : String) (cfg : AgentConfig) (r : ConfigResponse) (env : EnvInfo),
        configureAgent false u cfg (Except.ok r) env = Except.ok r)
    ∧ (∀ (u : String) (e : ApiError) (env : EnvInfo),
        listCollections false u (Except.error e) env =
          Except.error (debugApiError e "List Collections" env))
    ∧ (∀ (u : String) (r : CollectionsResponse) (env : EnvInfo),
        listCollections false u (Except.ok r) env = Except.ok r)
    ∧ (∀ (s : MockAgents) (u : String) (c p : Option String) (t : AgentType)
        (now : Nat) (e : ApiError) (env : EnvInfo),
        startAgent false s u c p t now (Except.error e) env =
          (s, Except.error (debugApiError e "Start Agent" env)))
    ∧ (∀ (s : MockAgents) (u : String) (c p : Option String) (t : AgentType)
        (now : Nat) (r : AgentResponse) (env : EnvInfo),
        startAgent false s u c p t now (Except.ok r) env = (s, Except.ok r))
    ∧ (∀ (s : MockAgents) (u : String) (e : ApiError) (env : EnvInfo),
        stopAgent false s u (Except.error e) env =
          (s, Except.error (debugApiError e "Stop Agent" env)))
    ∧ (∀ (s : MockAgents) (u : String) (r : AgentResponse) (env : EnvInfo),
        stopAgent false s u (Except.ok r) env = (s, Except.ok r))
    ∧ (∀ (s : MockAgents) (e : ApiError) (env : EnvInfo),
        listAgents false s (Except.error e) env =
          Except.error (debugApiError e "List Agents" env))
    ∧ (∀ (s : MockAgents) (r : AgentsListResponse) (env : EnvInfo),
        listAgents false s (Except.ok r) env = Except.ok r) :=
  ⟨fun _ _ _ _ _ => rfl, fun _ _ _ _ _ => rfl, fun _ _ _ _ => rfl, fun _ _ _ _ => rfl,
   fun _ _ _ => rfl, fun _ _ _ => rfl, fun _ _ _ _ _ _ _ _ => rfl,
   fun _ _ _ _ _ _ _ _ => rfl, fun _ _ _ _ => rfl, fun _ _ _ _ => rfl,
   fun _ _ _ => rfl, fun _ _ _ => rfl⟩

/-- C6: in mock mode, `startAgent` then `stopAgent` then `listAgents` for
the same `userId` returns an agent list with no descriptor whose `user_id`
equals that `userId` — the mock map holds no residual entry for the user.
The well-keyedness hypothesis holds for every state the mock map can reach,
since only `startAgent` inserts and it keys the record by its own
`user_id`. -/
theorem mock_start_stop_roundtrip_clears_user (s : MockAgents) (u : String)
    (c p : Option String) (t : AgentType) (now : Nat)
    (tr1 tr2 : Except ApiError AgentResponse) (tr3 : Except ApiError AgentsListResponse)
    (env : EnvInfo) (hwf : wellKeyed s) :
    listAgents true
        ((stopAgent true ((startAgent true s u c p t now tr1 env).1) u tr2 env).1) tr3 env
      = Except.ok
          ⟨objValues ((stopAgent true ((startAgent true s u c p t now tr1 env).1) u tr2 env).1)⟩
    ∧ ∀ a ∈ objValues
        ((stopAgent true ((startAgent true s u c p t now tr1 env).1) u tr2 env).1),
        a.user_id ≠ u := by
  constructor
  · rfl
  · have h1 : (startAgent true s u c p t now tr1 env).1 = objSet s u ⟨u, t, 0⟩ := rfl
    have h2 : (stopAgent true (objSet s u ⟨u, t, 0⟩) u tr2 env).1
        = objDelete (objSet s u ⟨u, t, 0⟩) u := rfl
    rw [h1, h2]
    exact objDelete_values_ne _ u (wellKeyed_objSet s u _ hwf rfl)

theorem mock_start_stop_roundtrip_clears_user_witness :
    wellKeyed s0
    ∧ ∀ a ∈ objValues
        ((stopAgent true
            ((startAgent true s0 "alice" none none AgentType.voice 42 trAgentOk env0).1)
            "alice" trAgentOk env0).1),
        a.user_id ≠ "alice" :=
  ⟨by decide,
   (mock_start_stop_roundtrip_clears_user s0 "alice" none none AgentType.voice 42
      trAgentOk trAgentOk trAgentsOk env0 (by decide)).2⟩

/-- C9: in mock mode `startAgent` keeps the agent map free of duplicate
`user_id`s; for a user whose agent is already recorded it overwrites the
entry in place (new `agent_type`, `running_time` reset to 0), still
resolves with status `success` and a fresh `container_id`, and never
reports `already_running`. -/
theorem mock_startAgent_overwrites_existing (s : MockAgents) (u : String)
    (c p : Option String) (t : AgentType) (now : Nat)
    (tr : Except ApiError AgentResponse) (env : EnvInfo)
    (hwf : wellKeyed s) (hnd : (s.map Prod.fst).Nodup) :
    ((startAgent true s u c p t now tr env).1.map (fun q => q.2.user_id)).Nodup
    ∧ ((startAgent true s u c p t now tr env).1.filter (fun q => q.1 == u)).map Prod.snd
        = [⟨u, t, 0⟩]
    ∧ (startAgent true s u c p t now tr env).2
        = Except.ok ⟨"success", u, some ("container_" ++ u ++ "_" ++ toString now)⟩
    ∧ ∀ r, (startAgent true s u c p t now tr env).2 = Except.ok r →
        r.status ≠ "already_running" := by
  have hstate : (startAgent true s u c p t now tr env).1 = objSet s u ⟨u, t, 0⟩ := rfl
  refine ⟨?_, ?_, rfl, ?_⟩
  · rw [hstate, wellKeyed_user_ids _ (wellKeyed_objSet s u _ hwf rfl)]
    exact objSet_keys_nodup s u _ hnd
  · rw [hstate]
    exact objSet_filter_values s u _ hnd
  · intro r hr
    have h2 : (Except.ok
        (⟨"success", u, some ("container_" ++ u ++ "_" ++ toString now)⟩ : AgentResponse)
        : Except String AgentResponse)
        = Except.ok r := by rw [← hr]; rfl
    have h3 := Except.ok.inj h2
    rw [← h3]
    show ¬ ("success" = "already_running")
    decide

theorem mock_startAgent_overwrites_existing_witness :
    wellKeyed s1 ∧ (s1.map Prod.fst).Nodup
    ∧ ((startAgent true s1 "carol" none none AgentType.web 5 trAgentOk env0).1.filter
          (fun q => q.1 == "carol")).map Prod.snd = [⟨"carol", AgentType.web, 0⟩] :=
  ⟨by decide, by decide,
   (mock_startAgent_overwrites_existing s1 "carol" none none AgentType.web 5 trAgentOk
      env0 (by decide) (by decide)).2.1⟩

end VoiceAgent
